import Mathlib

/-!
Shallow embedding of the stock Renko-chart dashboard (`src/app.py`).

Prices are modelled as rationals (`ℚ`); a provider cell that failed numeric
coercion (`pd.to_numeric(..., errors="coerce")` producing NaN) is `none`.
The external market-data call and the chart renderer are modelled as
parameters: the provider either raises (an `Except.error`) or returns a
data frame, and the renderer either raises or returns an image.
-/

namespace Stctdauto

/-- `calculate_brick_size` (app.py line 10–11): 1% of the current price. -/
def calculate_brick_size (current_price : ℚ) : ℚ :=
  current_price * (1 / 100)

/-- One raw provider row: the four OHLC cells after numeric coercion,
`none` standing for a NaN (non-numeric) cell. -/
structure RawRow where
  o : Option ℚ
  h : Option ℚ
  l : Option ℚ
  c : Option ℚ
deriving DecidableEq, Repr

/-- The provider's data frame after the multi-index flattening and the
column filter `data[[col for col in ohlc_cols if col in data.columns]]`
(app.py lines 26–31): which of the four OHLC columns are present, and the
rows. -/
structure DataFrame where
  hasOpen : Bool
  hasHigh : Bool
  hasLow : Bool
  hasClose : Bool
  rows : List RawRow
deriving DecidableEq, Repr

/-- A row survives `dropna()` when every PRESENT column's cell is numeric
(app.py line 34). -/
def rowValid (df : DataFrame) (r : RawRow) : Bool :=
  (!df.hasOpen || r.o.isSome) && (!df.hasHigh || r.h.isSome) &&
    (!df.hasLow || r.l.isSome) && (!df.hasClose || r.c.isSome)

/-- `data.apply(pd.to_numeric, errors="coerce").dropna()` (app.py line 34):
the rows whose present cells are all numeric. -/
def clean (df : DataFrame) : List RawRow :=
  df.rows.filter (rowValid df)

/-- True when none of the four OHLC columns is present; a pandas frame with
rows but zero columns still satisfies `data.empty` (app.py line 37). -/
def noOhlcCols (df : DataFrame) : Bool :=
  !df.hasOpen && !df.hasHigh && !df.hasLow && !df.hasClose

/-- `float(data["Close"].iloc[-1])` (app.py line 40): raises a `KeyError`
when the Close column is absent, otherwise reads the last cleaned row's
close. -/
def lastCloseOf (df : DataFrame) (cleaned : List RawRow) : Except String ℚ :=
  if df.hasClose then
    match cleaned.getLast? with
    | some r =>
      match r.c with
      | some v => Except.ok v
      | none => Except.error "cannot convert NaN to float"
    | none => Except.error "single positional indexer is out-of-bounds"
  else Except.error "KeyError: Close"

/-- `fetch_and_plot_renko` (app.py lines 13–61).  `provider` stands for the
`yf.download` call (an `Except.error` is a raised transport/provider
exception), `render` for the `mpf.plot`/`savefig` tail of the `try` block
(given the cleaned rows and the brick size, it returns the PNG buffer or
raises).  Every raised exception `e` is caught by the one `except` clause
and turned into `(None, "Error for {ticker}: {e}")`. -/
def fetch_and_plot_renko {Image : Type} (ticker : String)
    (provider : Except String DataFrame)
    (render : List RawRow → ℚ → Except String Image) :
    Option Image × Option String :=
  match provider with
  | Except.error e => (none, some ("Error for " ++ ticker ++ ": " ++ e))
  | Except.ok df =>
    if df.rows.isEmpty then
      (none, some ("No data for " ++ ticker))
    else
      let cleaned := clean df
      if cleaned.isEmpty || noOhlcCols df || cleaned.length < 10 then
        (none, some ("Not enough valid data for " ++ ticker))
      else
        match lastCloseOf df cleaned with
        | Except.error e => (none, some ("Error for " ++ ticker ++ ": " ++ e))
        | Except.ok current_price =>
          let brick_size := calculate_brick_size current_price
          match render cleaned brick_size with
          | Except.ok buf => (some buf, none)
          | Except.error e => (none, some ("Error for " ++ ticker ++ ": " ++ e))

/-! ## UI shell: index selection -/

/-- `index_selected` (app.py line 83). -/
def index_selected (allChecked c50 c100 c200 c500 cdefense : Bool) : Bool :=
  c50 || c100 || c200 || c500 || cdefense || allChecked

/-- `available_stocks` (app.py lines 86–96): starts empty, then each of the
five update steps in order. -/
def available_stocks (allChecked c50 c100 c200 c500 cdefense : Bool)
    (n50 n100 n200 n500 ndefense : Finset String) : Finset String :=
  let s0 : Finset String := ∅
  let s1 := if allChecked || c50 then s0 ∪ n50 else s0
  let s2 := if allChecked || c100 then s1 ∪ n100 else s1
  let s3 := if allChecked || c200 then s2 ∪ n200 else s2
  let s4 := if allChecked || c500 then s3 ∪ n500 else s3
  if allChecked || cdefense then s4 ∪ ndefense else s4

/-! ## UI shell: search-term normalization -/

/-- The whitespace characters Python's `str.strip()` removes (ASCII). -/
def isPySpace (ch : Char) : Bool :=
  ch = ' ' || ch = '\t' || ch = '\n' || ch = '\r' || ch = '\x0b' || ch = '\x0c'

/-- Python `str.strip()`: drop leading and trailing whitespace. -/
def pyStrip (s : List Char) : List Char :=
  ((s.dropWhile isPySpace).reverse.dropWhile isPySpace).reverse

/-- Python `str.upper()` (ASCII part). -/
def pyUpper (s : List Char) : List Char :=
  s.map Char.toUpper

/-- Python `str.lower()` (ASCII part). -/
def pyLower (s : List Char) : List Char :=
  s.map Char.toLower

/-- Normalization of the search box text (app.py lines 153–155):
`search_term.strip().upper()`, then append `".NS"` when the result is
non-empty and does not already end in `".NS"`. -/
def normalize_search_term (s : String) : String :=
  let t := String.mk (pyUpper (pyStrip s.data))
  if t ≠ "" && !(List.isSuffixOf ".NS".data t.data) then t ++ ".NS" else t

/-! ## UI shell: autocomplete suggestions -/

/-- Python `s.split(pat)[0]` for a non-empty `pat`: the characters before
the first occurrence of `pat` (the whole string when `pat` is absent). -/
def beforeFirst (pat : List Char) : List Char → List Char
  | [] => []
  | ch :: rest =>
    if pat.isPrefixOf (ch :: rest) then [] else ch :: beforeFirst pat rest

/-- Python `needle in hay` on strings: contiguous-substring containment. -/
def substrContains (hay needle : List Char) : Bool :=
  (List.range (hay.length + 1)).any fun i => needle.isPrefixOf (hay.drop i)

/-- The comprehension predicate of app.py line 159:
`search_term.split(".NS")[0].lower() in stock.lower()`. -/
def matchesSearch (search_term stock : String) : Bool :=
  substrContains (pyLower stock.data) (pyLower (beforeFirst ".NS".data search_term.data))

/-- `suggestions` (app.py line 159): the members of the available set that
match the search term. -/
def suggestions (available : List String) (search_term : String) : List String :=
  available.filter (matchesSearch search_term)

/-- Lexicographic code-point comparison of character lists: how Python
compares two strings. -/
def listLexLe : List Char → List Char → Bool
  | [], _ => true
  | _ :: _, [] => false
  | a :: as, b :: bs =>
    if a.toNat < b.toNat then true
    else if b.toNat < a.toNat then false
    else listLexLe as bs

/-- Python's `<=` on strings: lexicographic by code point. -/
def strLe (a b : String) : Bool :=
  listLexLe a.data b.data

/-- Insert into a sorted list, before the first element it is ≤ to (the
stable placement Python's sort gives equal keys). -/
def insertSorted (x : String) : List String → List String
  | [] => [x]
  | y :: ys => if strLe x y then x :: y :: ys else y :: insertSorted x ys

/-- Python `sorted(...)` on strings: a stable sort by `strLe`, modelled as
insertion sort. -/
def pySorted : List String → List String
  | [] => []
  | x :: xs => insertSorted x (pySorted xs)

/-- The order the suggestion buttons are rendered in (app.py line 162):
`sorted(suggestions)`. -/
def displayedSuggestions (available : List String) (search_term : String) : List String :=
  pySorted (suggestions available search_term)

/-- Modelled from the claim's words, for comparison with the code: the
members of the available set whose symbol contains the FULL normalized
search term as a case-insensitive substring, sorted. -/
def displayedSuggestionsClaim (available : List String) (search_term : String) : List String :=
  pySorted (available.filter fun stock =>
    substrContains (pyLower stock.data) (pyLower search_term.data))

/-! ## UI shell: display trigger -/

/-- `stock_to_plot` (app.py line 170): the stored selection when non-empty,
else the typed search term. -/
def stock_to_plot (search_term selected : String) : String :=
  if selected ≠ "" then selected else search_term

/-- Outcome of the display block (app.py lines 169–201). -/
inductive DisplayOutcome (Image : Type) where
  /-- Neither a search term nor a selection: the block does not run. -/
  | noQuery : DisplayOutcome Image
  /-- `st.error("Please select a valid stock …")` (app.py line 173). -/
  | validationError (ticker : String) : DisplayOutcome Image
  /-- The chart branch ran for `ticker` and showed the image or the error. -/
  | shown (ticker : String) (chart : Option Image) (err : Option String) :
      DisplayOutcome Image
deriving DecidableEq

/-- The display block (app.py lines 169–201): runs only when a search term
or a selection is present; validates against `available` when an index
filter is active; otherwise calls the fetch-and-plot pipeline. -/
def display_step {Image : Type} (idxSel : Bool) (available : Finset String)
    (search_term selected : String)
    (fetchPlot : String → Option Image × Option String) : DisplayOutcome Image :=
  if search_term ≠ "" ∨ selected ≠ "" then
    let s := stock_to_plot search_term selected
    if idxSel = true ∧ s ∉ available then
      DisplayOutcome.validationError s
    else
      let r := fetchPlot s
      DisplayOutcome.shown s r.1 r.2
  else DisplayOutcome.noQuery

/-! ## Helper lemmas about the pipeline -/

theorem lastCloseOf_eq_ok (df : DataFrame) (c : ℚ) (hclose : df.hasClose = true)
    (hc : ((clean df).getLast?.bind RawRow.c) = some c) :
    lastCloseOf df (clean df) = Except.ok c := by
  unfold lastCloseOf
  rw [hclose]
  cases hl : (clean df).getLast? with
  | none => rw [hl] at hc; simp at hc
  | some r =>
    rw [hl] at hc
    simp only [Option.bind_some, Option.some_bind] at hc
    simp [hc]

theorem fetch_ok_unfold {Image : Type} (ticker : String) (df : DataFrame)
    (render : List RawRow → ℚ → Except String Image)
    (hrows : df.rows.isEmpty = false)
    (hcols : noOhlcCols df = false)
    (h10 : 10 ≤ (clean df).length) :
    fetch_and_plot_renko ticker (Except.ok df) render =
      match lastCloseOf df (clean df) with
      | Except.error e => (none, some ("Error for " ++ ticker ++ ": " ++ e))
      | Except.ok current_price =>
        match render (clean df) (calculate_brick_size current_price) with
        | Except.ok buf => (some buf, none)
        | Except.error e => (none, some ("Error for " ++ ticker ++ ": " ++ e)) := by
  have hne : (clean df).isEmpty = false := by
    cases hcl : clean df with
    | nil => rw [hcl] at h10; simp at h10
    | cons a t => simp
  have hlt : ¬ (clean df).length < 10 := by omega
  simp only [fetch_and_plot_renko]
  rw [hrows]
  simp only [Bool.false_eq_true, if_false]
  rw [show ((clean df).isEmpty || noOhlcCols df || decide ((clean df).length < 10)) = false by
    rw [hne, hcols, decide_eq_false hlt]; rfl]
  simp only [Bool.false_eq_true, if_false]

/-! ## Witness fixtures -/

/-- A valid row with close 100. -/
def rowHundred : RawRow := ⟨some 100, some 101, some 99, some 100⟩

/-- A data frame with ten valid rows, last close 100. -/
def dfHundred : DataFrame := ⟨true, true, true, true, List.replicate 10 rowHundred⟩

/-- A valid row whose close is 0. -/
def rowZero : RawRow := ⟨some 1, some 1, some 1, some 0⟩

/-- A data frame with ten valid rows, last close 0. -/
def dfZeroClose : DataFrame := ⟨true, true, true, true, List.replicate 10 rowZero⟩

/-- A provider frame with no rows at all. -/
def dfNoRows : DataFrame := ⟨true, true, true, true, []⟩

/-- A data frame with only three valid rows. -/
def dfThreeRows : DataFrame := ⟨true, true, true, true, List.replicate 3 rowHundred⟩

/-- A renderer that succeeds and returns the brick size it was given. -/
def renderEchoBrick : List RawRow → ℚ → Except String ℚ :=
  fun _ brick => Except.ok brick

/-- A renderer that always raises. -/
def renderRaise : List RawRow → ℚ → Except String ℚ :=
  fun _ _ => Except.error "brick size must be positive"

/-! ## C1 -/

/-- C1: for a cleaned sequence the pipeline accepts (non-empty provider
data, a Close column, at least ten clean rows), the brick size handed to
the renderer is `calculate_brick_size` of the final clean row's close,
which equals exactly `1/100` of that close and is strictly positive when
that close is. -/
theorem brick_size_is_one_percent_of_last_close {Image : Type} (ticker : String)
    (df : DataFrame) (render : List RawRow → ℚ → Except String Image) (c : ℚ)
    (hrows : df.rows.isEmpty = false)
    (hclose : df.hasClose = true)
    (h10 : 10 ≤ (clean df).length)
    (hc : ((clean df).getLast?.bind RawRow.c) = some c) :
    (fetch_and_plot_renko ticker (Except.ok df) render =
      match render (clean df) (calculate_brick_size c) with
      | Except.ok buf => (some buf, none)
      | Except.error e => (none, some ("Error for " ++ ticker ++ ": " ++ e))) ∧
    calculate_brick_size c = c * (1 / 100) ∧
    (0 < c → 0 < calculate_brick_size c) := by
  have hcols : noOhlcCols df = false := by
    simp [noOhlcCols, hclose]
  refine ⟨?_, rfl, ?_⟩
  · rw [fetch_ok_unfold ticker df render hrows hcols h10,
      lastCloseOf_eq_ok df c hclose hc]
  · intro hpos
    unfold calculate_brick_size
    positivity

/-- C1 witness: on the ten-row frame with last close 100 and a renderer
echoing its brick size, the pipeline returns the image `1 = 100 * (1/100)`. -/
theorem brick_size_is_one_percent_of_last_close_witness :
    fetch_and_plot_renko "RELIANCE.NS" (Except.ok dfHundred) renderEchoBrick =
      (some (1 : ℚ), none) := by
  have h := brick_size_is_one_percent_of_last_close "RELIANCE.NS" dfHundred
    renderEchoBrick 100 (by decide) (by decide) (by decide) (by decide)
  rw [h.1]
  simp only [renderEchoBrick]
  norm_num [calculate_brick_size]

/-! ## C2 -/

/-- C2 counterexample: the cleaned frame `dfZeroClose` has final close 0
(so `lastClose ≤ 0`), yet the pipeline does not fail with any
`InvalidPrice` error: it proceeds to the renderer with brick size 0 and,
when the renderer succeeds, returns an image with no error at all. -/
theorem no_invalid_price_error_on_zero_close :
    ((clean dfZeroClose).getLast?.bind RawRow.c) = some 0 ∧
    fetch_and_plot_renko "TEST.NS" (Except.ok dfZeroClose) renderEchoBrick =
      (some (0 : ℚ), none) := by
  refine ⟨by decide, ?_⟩
  rw [fetch_ok_unfold "TEST.NS" dfZeroClose renderEchoBrick (by decide) (by decide)
    (by decide), lastCloseOf_eq_ok dfZeroClose 0 (by decide) (by decide)]
  simp only [renderEchoBrick]
  norm_num [calculate_brick_size]

/-- C2 amended: when the final clean close `c` is ≤ 0, the pipeline
performs no guard: it computes the (zero or negative) brick size
`calculate_brick_size c` and invokes the renderer with it; a renderer
fault is reported only as the generic caught-exception message. -/
theorem zero_close_reaches_render_unguarded {Image : Type} (ticker : String)
    (df : DataFrame) (render : List RawRow → ℚ → Except String Image) (c : ℚ)
    (hrows : df.rows.isEmpty = false)
    (hclose : df.hasClose = true)
    (h10 : 10 ≤ (clean df).length)
    (hc : ((clean df).getLast?.bind RawRow.c) = some c)
    (hnp : c ≤ 0) :
    calculate_brick_size c ≤ 0 ∧
    (fetch_and_plot_renko ticker (Except.ok df) render =
      match render (clean df) (calculate_brick_size c) with
      | Except.ok buf => (some buf, none)
      | Except.error e => (none, some ("Error for " ++ ticker ++ ": " ++ e))) := by
  have hcols : noOhlcCols df = false := by
    simp [noOhlcCols, hclose]
  constructor
  · unfold calculate_brick_size
    nlinarith
  · rw [fetch_ok_unfold ticker df render hrows hcols h10,
      lastCloseOf_eq_ok df c hclose hc]

/-- C2 amended witness: on the zero-close frame with a raising renderer,
the pipeline surfaces the renderer's message as the generic error. -/
theorem zero_close_reaches_render_unguarded_witness :
    fetch_and_plot_renko "TEST.NS" (Except.ok dfZeroClose) renderRaise =
      (none, some "Error for TEST.NS: brick size must be positive") := by
  have h := zero_close_reaches_render_unguarded "TEST.NS" dfZeroClose
    renderRaise 0 (by decide) (by decide) (by decide) (by decide) (by norm_num)
  rw [h.2]
  simp only [renderRaise]
  decide

/-! ## C3 -/

/-- C3 counterexample: an empty provider frame leaves 0 < 10 valid rows
after cleaning, yet the fetch fails with the `NoData` message
`"No data for …"`, not the `InsufficientData` message
`"Not enough valid data for …"` (no chart is produced either way). -/
theorem empty_frame_gives_nodata_not_insufficient :
    (clean dfNoRows).length < 10 ∧
    fetch_and_plot_renko "TEST.NS" (Except.ok dfNoRows) renderEchoBrick =
      (none, some "No data for TEST.NS") ∧
    ("No data for TEST.NS" : String) ≠ "Not enough valid data for TEST.NS" := by
  exact ⟨by decide, by decide, by decide⟩

/-- C3 amended: when the provider frame is non-empty but fewer than ten
valid rows survive cleaning, the fetch fails with the `InsufficientData`
message and produces no chart (an entirely empty provider frame fails
earlier, with the `NoData` message). -/
theorem insufficient_rows_fail_with_insufficient_data {Image : Type}
    (ticker : String) (df : DataFrame)
    (render : List RawRow → ℚ → Except String Image)
    (hrows : df.rows.isEmpty = false)
    (hlt : (clean df).length < 10) :
    fetch_and_plot_renko ticker (Except.ok df) render =
      (none, some ("Not enough valid data for " ++ ticker)) := by
  simp only [fetch_and_plot_renko]
  rw [hrows]
  simp only [Bool.false_eq_true, if_false]
  rw [show ((clean df).isEmpty || noOhlcCols df || decide ((clean df).length < 10)) = true by
    rw [decide_eq_true hlt]; simp]
  simp only [if_true]

/-- C3 amended witness: three valid rows yield the insufficient-data
error. -/
theorem insufficient_rows_fail_with_insufficient_data_witness :
    fetch_and_plot_renko "TEST.NS" (Except.ok dfThreeRows) renderEchoBrick =
      (none, some "Not enough valid data for TEST.NS") := by
  exact insufficient_rows_fail_with_insufficient_data "TEST.NS" dfThreeRows
    renderEchoBrick (by decide) (by decide)

/-! ## C4 and C10: the shape of every pipeline outcome -/

theorem fetch_nodata {Image : Type} (ticker : String) (df : DataFrame)
    (render : List RawRow → ℚ → Except String Image)
    (hrows : df.rows.isEmpty = true) :
    fetch_and_plot_renko ticker (Except.ok df) render =
      (none, some ("No data for " ++ ticker)) := by
  simp only [fetch_and_plot_renko]
  rw [hrows]
  simp only [if_true]

theorem fetch_insufficient_cond {Image : Type} (ticker : String) (df : DataFrame)
    (render : List RawRow → ℚ → Except String Image)
    (hrows : df.rows.isEmpty = false)
    (hcond : ((clean df).isEmpty || noOhlcCols df || decide ((clean df).length < 10)) = true) :
    fetch_and_plot_renko ticker (Except.ok df) render =
      (none, some ("Not enough valid data for " ++ ticker)) := by
  simp only [fetch_and_plot_renko]
  rw [hrows]
  simp only [Bool.false_eq_true, if_false]
  rw [hcond]
  simp only [if_true]

/-- Every outcome of the pipeline is either an image with no error, or no
image with an error message of the form `pre ++ ticker ++ post` for a
non-empty literal `pre`.  (Shared helper for the error-handling claims.) -/
theorem fetch_outcome_shape {Image : Type} (ticker : String)
    (provider : Except String DataFrame)
    (render : List RawRow → ℚ → Except String Image) :
    (∃ buf, fetch_and_plot_renko ticker provider render = (some buf, none)) ∨
    (∃ pre post, pre ≠ "" ∧
      fetch_and_plot_renko ticker provider render =
        (none, some (pre ++ ticker ++ post))) := by
  cases provider with
  | error e =>
    right
    refine ⟨"Error for ", ": " ++ e, by decide, ?_⟩
    simp [fetch_and_plot_renko, String.append_assoc]
  | ok df =>
    cases hre : df.rows.isEmpty with
    | true =>
      right
      refine ⟨"No data for ", "", by decide, ?_⟩
      rw [fetch_nodata ticker df render hre]
      simp
    | false =>
      cases hcond : ((clean df).isEmpty || noOhlcCols df || decide ((clean df).length < 10)) with
      | true =>
        right
        refine ⟨"Not enough valid data for ", "", by decide, ?_⟩
        rw [fetch_insufficient_cond ticker df render hre hcond]
        simp
      | false =>
        have hcols : noOhlcCols df = false := by
          cases h : noOhlcCols df
          · rfl
          · rw [h] at hcond; simp at hcond
        have h10 : 10 ≤ (clean df).length := by
          by_contra hlt
          push_neg at hlt
          rw [decide_eq_true hlt] at hcond
          simp at hcond
        rw [fetch_ok_unfold ticker df render hre hcols h10]
        cases hl : lastCloseOf df (clean df) with
        | error e =>
          right
          refine ⟨"Error for ", ": " ++ e, by decide, ?_⟩
          simp [String.append_assoc]
        | ok cp =>
          cases hr : render (clean df) (calculate_brick_size cp) with
          | error e =>
            right
            refine ⟨"Error for ", ": " ++ e, by decide, ?_⟩
            simp only [hr]
            simp [String.append_assoc]
          | ok buf =>
            left
            refine ⟨buf, ?_⟩
            simp only [hr]

/-- C4: faults are caught and mapped to an error value carrying the ticker:
a raised provider/transport fault, a missing Close column (the `KeyError`
at `data["Close"]`), and a raised renderer fault each yield
`(None, "Error for {ticker}: …")`; and every error message the operation
can ever return embeds the ticker after a non-empty prefix — no fault
leaves the function without being converted to such a value. -/
theorem faults_are_caught_with_ticker {Image : Type} (ticker : String)
    (provider : Except String DataFrame)
    (render : List RawRow → ℚ → Except String Image) :
    (∀ e, provider = Except.error e →
      fetch_and_plot_renko ticker provider render =
        (none, some ("Error for " ++ ticker ++ ": " ++ e))) ∧
    (∀ df, provider = Except.ok df → df.rows.isEmpty = false →
      df.hasClose = false → noOhlcCols df = false → 10 ≤ (clean df).length →
      fetch_and_plot_renko ticker provider render =
        (none, some ("Error for " ++ ticker ++ ": " ++ "KeyError: Close"))) ∧
    (∀ df c e, provider = Except.ok df → df.rows.isEmpty = false →
      df.hasClose = true → 10 ≤ (clean df).length →
      ((clean df).getLast?.bind RawRow.c) = some c →
      render (clean df) (calculate_brick_size c) = Except.error e →
      fetch_and_plot_renko ticker provider render =
        (none, some ("Error for " ++ ticker ++ ": " ++ e))) ∧
    (∀ msg, (fetch_and_plot_renko ticker provider render).2 = some msg →
      ∃ pre post, pre ≠ "" ∧ msg = pre ++ ticker ++ post) := by
  refine ⟨?_, ?_, ?_, ?_⟩
  · intro e he
    rw [he]
    rfl
  · intro df hp hrows hnoclose hcols h10
    rw [hp, fetch_ok_unfold ticker df render hrows hcols h10]
    unfold lastCloseOf
    rw [hnoclose]
    rfl
  · intro df c e hp hrows hclose h10 hc hr
    have hcols : noOhlcCols df = false := by simp [noOhlcCols, hclose]
    rw [hp, fetch_ok_unfold ticker df render hrows hcols h10,
      lastCloseOf_eq_ok df c hclose hc]
    simp only [hr]
  · intro msg hmsg
    rcases fetch_outcome_shape ticker provider render with ⟨buf, hb⟩ | ⟨pre, post, hpre, hb⟩
    · rw [hb] at hmsg
      simp at hmsg
    · rw [hb] at hmsg
      simp only [Option.some.injEq] at hmsg
      exact ⟨pre, post, hpre, hmsg.symm⟩

/-- C10: the pipeline's pair has exactly one non-`None` component: either
an image and no error, or no image and a non-empty error string. -/
theorem result_pair_is_exclusive {Image : Type} (ticker : String)
    (provider : Except String DataFrame)
    (render : List RawRow → ℚ → Except String Image) :
    (∃ buf, fetch_and_plot_renko ticker provider render = (some buf, none)) ∨
    (∃ msg, fetch_and_plot_renko ticker provider render = (none, some msg) ∧
      msg ≠ "") := by
  rcases fetch_outcome_shape ticker provider render with ⟨buf, hb⟩ | ⟨pre, post, hpre, hb⟩
  · exact Or.inl ⟨buf, hb⟩
  · refine Or.inr ⟨pre ++ ticker ++ post, hb, ?_⟩
    intro hcontra
    apply hpre
    have hlen := congrArg String.length hcontra
    simp only [String.length_append] at hlen
    have : pre.length = 0 := by
      have h0 : ("" : String).length = 0 := rfl
      omega
    cases pre with
    | mk data =>
      cases data with
      | nil => rfl
      | cons a t => simp [String.length] at this

/-! ## C5 -/

/-- C5: `available_stocks` is exactly the union of the member sets whose
checkbox is on (an index counts as selected when its own box or the All
box is on), and with All on it is the union of all five sets whatever the
other boxes hold. -/
theorem available_stocks_is_union_of_selected
    (allChecked c50 c100 c200 c500 cdefense : Bool)
    (n50 n100 n200 n500 ndefense : Finset String) :
    (∀ x, x ∈ available_stocks allChecked c50 c100 c200 c500 cdefense
        n50 n100 n200 n500 ndefense ↔
      (((allChecked || c50) = true ∧ x ∈ n50) ∨
       ((allChecked || c100) = true ∧ x ∈ n100) ∨
       ((allChecked || c200) = true ∧ x ∈ n200) ∨
       ((allChecked || c500) = true ∧ x ∈ n500) ∨
       ((allChecked || cdefense) = true ∧ x ∈ ndefense))) ∧
    (allChecked = true →
      available_stocks allChecked c50 c100 c200 c500 cdefense
          n50 n100 n200 n500 ndefense =
        n50 ∪ n100 ∪ n200 ∪ n500 ∪ ndefense) := by
  constructor
  · intro x
    cases allChecked <;> cases c50 <;> cases c100 <;> cases c200 <;>
      cases c500 <;> cases cdefense <;>
      simp [available_stocks, or_assoc]
  · intro h
    subst h
    simp [available_stocks]

/-- C5 witness: with All on and the others off, the set is the union of
five concrete singletons. -/
theorem available_stocks_is_union_of_selected_witness :
    available_stocks true false false false false false
        {"A.NS"} {"B.NS"} {"C.NS"} {"D.NS"} {"E.NS"} =
      {"A.NS"} ∪ {"B.NS"} ∪ {"C.NS"} ∪ {"D.NS"} ∪ {"E.NS"} :=
  (available_stocks_is_union_of_selected true false false false false false
    {"A.NS"} {"B.NS"} {"C.NS"} {"D.NS"} {"E.NS"}).2 rfl

/-! ## C7 -/

/-- C7: normalization strips whitespace, uppercases, and appends `".NS"`
exactly when the stripped-and-uppercased term is non-empty and does not
already end in `".NS"`; an empty input stays empty, and every non-empty
result ends in `".NS"`. -/
theorem normalize_trims_uppercases_appends_suffix (s : String) :
    (normalize_search_term "" = "") ∧
    (String.mk (pyUpper (pyStrip s.data)) = "" → normalize_search_term s = "") ∧
    (∀ t : String, t = String.mk (pyUpper (pyStrip s.data)) → t ≠ "" →
      (List.isSuffixOf ".NS".data t.data = true → normalize_search_term s = t) ∧
      (List.isSuffixOf ".NS".data t.data = false →
        normalize_search_term s = t ++ ".NS")) ∧
    (normalize_search_term s ≠ "" →
      List.isSuffixOf ".NS".data (normalize_search_term s).data = true) := by
  refine ⟨rfl, ?_, ?_, ?_⟩
  · intro h
    simp only [normalize_search_term, h]
    simp
  · intro t ht hne
    subst ht
    constructor
    · intro hsuf
      simp only [normalize_search_term, hsuf]
      simp
    · intro hsuf
      simp only [normalize_search_term, hsuf]
      simp [hne]
  · intro hne
    by_cases h0 : String.mk (pyUpper (pyStrip s.data)) = ""
    · exfalso
      apply hne
      simp only [normalize_search_term, h0]
      simp
    · cases hsuf : List.isSuffixOf ".NS".data (String.mk (pyUpper (pyStrip s.data))).data with
      | true =>
        simp only [normalize_search_term, hsuf]
        simp only [Bool.not_true, Bool.and_false, Bool.false_eq_true, if_false]
        exact hsuf
      | false =>
        simp only [normalize_search_term, hsuf]
        simp only [Bool.not_false, Bool.and_true]
        rw [if_pos (show decide (String.mk (pyUpper (pyStrip s.data)) ≠ "") = true by
          simp [h0])]
        rw [String.data_append, List.isSuffixOf_iff_suffix]
        exact List.suffix_append (String.mk (pyUpper (pyStrip s.data))).data ".NS".data

/-- C7 witness: `"  bel "` strips, uppercases and gains the suffix. -/
theorem normalize_trims_uppercases_appends_suffix_witness :
    normalize_search_term "  bel " = "BEL.NS" := by
  have h := (normalize_trims_uppercases_appends_suffix "  bel ").2.2.1
    "BEL" (by decide) (by decide)
  exact h.2 (by decide)

/-! ## Sorting lemmas (helpers for C6) -/

theorem listLexLe_total : ∀ a b : List Char, (listLexLe a b || listLexLe b a) = true := by
  intro a
  induction a with
  | nil => intro b; simp [listLexLe]
  | cons x xs ih =>
    intro b
    cases b with
    | nil => simp [listLexLe]
    | cons y ys =>
      by_cases h1 : x.toNat < y.toNat
      · simp [listLexLe, h1]
      · by_cases h2 : y.toNat < x.toNat
        · simp [listLexLe, h1, h2]
        · simp only [listLexLe, h1, h2, if_false]
          exact ih ys

theorem listLexLe_trans : ∀ la lb lc : List Char,
    listLexLe la lb = true → listLexLe lb lc = true → listLexLe la lc = true := by
  intro la
  induction la with
  | nil => intro lb lc _ _; rfl
  | cons a as ih =>
    intro lb lc hab hbc
    cases lb with
    | nil => simp [listLexLe] at hab
    | cons b bs =>
      cases lc with
      | nil => simp [listLexLe] at hbc
      | cons c cs =>
        simp only [listLexLe] at hab hbc ⊢
        by_cases hab1 : a.toNat < b.toNat
        · by_cases hbc1 : b.toNat < c.toNat
          · simp [show a.toNat < c.toNat from lt_trans hab1 hbc1]
          · by_cases hbc2 : c.toNat < b.toNat
            · rw [if_neg hbc1, if_pos hbc2] at hbc
              exact absurd hbc (by simp)
            · simp [show a.toNat < c.toNat by omega]
        · by_cases hab2 : b.toNat < a.toNat
          · rw [if_neg hab1, if_pos hab2] at hab
            exact absurd hab (by simp)
          · rw [if_neg hab1, if_neg hab2] at hab
            by_cases hbc1 : b.toNat < c.toNat
            · simp [show a.toNat < c.toNat by omega]
            · by_cases hbc2 : c.toNat < b.toNat
              · rw [if_neg hbc1, if_pos hbc2] at hbc
                exact absurd hbc (by simp)
              · rw [if_neg hbc1, if_neg hbc2] at hbc
                rw [if_neg (show ¬ a.toNat < c.toNat by omega),
                  if_neg (show ¬ c.toNat < a.toNat by omega)]
                exact ih bs cs hab hbc

theorem strLe_total (a b : String) : (strLe a b || strLe b a) = true :=
  listLexLe_total a.data b.data

theorem strLe_trans {a b c : String} (hab : strLe a b = true)
    (hbc : strLe b c = true) : strLe a c = true :=
  listLexLe_trans a.data b.data c.data hab hbc

theorem insertSorted_perm (x : String) (l : List String) :
    List.Perm (insertSorted x l) (x :: l) := by
  induction l with
  | nil => exact List.Perm.refl _
  | cons y ys ih =>
    cases h : strLe x y with
    | true => simp [insertSorted, h]
    | false =>
      simp only [insertSorted, h, Bool.false_eq_true, if_false]
      exact (ih.cons y).trans (List.Perm.swap x y ys)

theorem pySorted_perm (l : List String) : List.Perm (pySorted l) l := by
  induction l with
  | nil => exact List.Perm.refl _
  | cons x xs ih =>
    exact (insertSorted_perm x (pySorted xs)).trans (ih.cons x)

theorem insertSorted_pairwise (x : String) (l : List String)
    (hl : List.Pairwise (fun a b => strLe a b = true) l) :
    List.Pairwise (fun a b => strLe a b = true) (insertSorted x l) := by
  induction l with
  | nil => simp [insertSorted]
  | cons y ys ih =>
    rcases List.pairwise_cons.mp hl with ⟨hy, hys⟩
    cases h : strLe x y with
    | true =>
      simp only [insertSorted, h, if_true]
      refine List.pairwise_cons.mpr ⟨?_, hl⟩
      intro z hz
      rcases List.mem_cons.mp hz with hz | hz
      · rw [hz]; exact h
      · exact strLe_trans h (hy z hz)
    | false =>
      simp only [insertSorted, h, Bool.false_eq_true, if_false]
      refine List.pairwise_cons.mpr ⟨?_, ih hys⟩
      intro z hz
      have hz2 : z ∈ x :: ys := (insertSorted_perm x ys).mem_iff.mp hz
      rcases List.mem_cons.mp hz2 with hzx | hzys
      · rw [hzx]
        have htot := strLe_total x y
        rw [h] at htot
        simpa using htot
      · exact hy z hzys

theorem pySorted_pairwise (l : List String) :
    List.Pairwise (fun a b => strLe a b = true) (pySorted l) := by
  induction l with
  | nil => simp [pySorted]
  | cons x xs ih => exact insertSorted_pairwise x (pySorted xs) ih

/-! ## C6 -/

/-- C6 counterexample: over the filter set `{BELX.NS, BEL.NS}` with the
normalized term `"BEL.NS"` (from typing `BEL`), the code's suggestion list
holds both symbols, but the set described by the claim — symbols containing
the full normalized term case-insensitively — holds only `BEL.NS`: the two
differ, because the code matches on the part of the term before `".NS"`. -/
theorem suggestions_differ_from_full_term_containment :
    normalize_search_term "BEL" = "BEL.NS" ∧
    displayedSuggestions ["BELX.NS", "BEL.NS"] "BEL.NS" = ["BEL.NS", "BELX.NS"] ∧
    displayedSuggestionsClaim ["BELX.NS", "BEL.NS"] "BEL.NS" = ["BEL.NS"] ∧
    displayedSuggestions ["BELX.NS", "BEL.NS"] "BEL.NS" ≠
      displayedSuggestionsClaim ["BELX.NS", "BEL.NS"] "BEL.NS" := by
  exact ⟨by decide, by decide, by decide, by decide⟩

/-- C6 amended: the displayed suggestion list consists exactly of the
members of the available set whose lowercased symbol contains, as a
substring, the lowercased portion of the search term before its first
`".NS"`, in lexicographic (code-point) order; in particular the normalized
term for `"BEL"` over `{BEL.NS, BELX.NS}` yields both in sorted order, and
the one for `"ZZZNOPE"` yields the empty list. -/
theorem suggestions_match_term_before_suffix (available : List String)
    (search_term : String) :
    List.Pairwise (fun a b => strLe a b = true)
      (displayedSuggestions available search_term) ∧
    (∀ s, s ∈ displayedSuggestions available search_term ↔
      s ∈ available ∧ matchesSearch search_term s = true) ∧
    displayedSuggestions ["BELX.NS", "BEL.NS"] (normalize_search_term "BEL") =
      ["BEL.NS", "BELX.NS"] ∧
    displayedSuggestions ["BELX.NS", "BEL.NS"] (normalize_search_term "ZZZNOPE") =
      [] := by
  refine ⟨pySorted_pairwise _, ?_, by decide, by decide⟩
  intro s
  rw [displayedSuggestions, (pySorted_perm (suggestions available search_term)).mem_iff]
  simp [suggestions, List.mem_filter]

/-! ## C8 -/

/-- C8: when an index filter is active and the resolved ticker is not in
`available_stocks`, the display block ends in the validation error for
every possible fetch function — so the result does not depend on the fetch
at all: it is never invoked, and no chart outcome is produced. -/
theorem invalid_ticker_blocks_fetch {Image : Type} (available : Finset String)
    (search_term selected : String)
    (hquery : search_term ≠ "" ∨ selected ≠ "")
    (hnot : stock_to_plot search_term selected ∉ available) :
    ∀ fetchPlot : String → Option Image × Option String,
      display_step true available search_term selected fetchPlot =
        DisplayOutcome.validationError (stock_to_plot search_term selected) := by
  intro fetchPlot
  simp only [display_step]
  rw [if_pos hquery, if_pos ⟨trivial, hnot⟩]

/-- C8 witness: filter active, `TCS` typed but not in the one-element
filter set: the outcome is the validation error, whatever the fetch does. -/
theorem invalid_ticker_blocks_fetch_witness :
    display_step true ({"RELIANCE.NS"} : Finset String) "TCS" ""
      (fun _ => (some (0 : ℕ), none)) =
      DisplayOutcome.validationError "TCS" := by
  exact invalid_ticker_blocks_fetch ({"RELIANCE.NS"} : Finset String)
    "TCS" "" (Or.inl (by decide)) (by decide) (fun _ => (some (0 : ℕ), none))

/-! ## C9 -/

/-- C9: with a non-empty stored selection that differs from the non-empty
search term, the ticker that is validated and plotted is the selection;
the search term is the resolved ticker only when the selection is empty. -/
theorem selection_overrides_search {Image : Type} (idxSel : Bool)
    (available : Finset String) (search_term selected : String)
    (fetchPlot : String → Option Image × Option String)
    (hs : search_term ≠ "") (hsel : selected ≠ "")
    (hdiff : search_term ≠ selected) :
    stock_to_plot search_term selected = selected ∧
    (display_step idxSel available search_term selected fetchPlot =
      if idxSel = true ∧ selected ∉ available then
        DisplayOutcome.validationError selected
      else
        DisplayOutcome.shown selected (fetchPlot selected).1 (fetchPlot selected).2) ∧
    (∀ t : String, stock_to_plot t "" = t) := by
  have hstp : stock_to_plot search_term selected = selected := if_pos hsel
  refine ⟨hstp, ?_, fun t => by simp [stock_to_plot]⟩
  simp only [display_step]
  rw [if_pos (Or.inl hs), hstp]

/-- C9 witness: selection `INFY.NS` wins over typed `TCS.NS`; with no
filter the fetch runs on the selection. -/
theorem selection_overrides_search_witness :
    display_step false (∅ : Finset String) "TCS.NS" "INFY.NS"
      (fun t => ((none : Option ℕ), some ("Error for " ++ t ++ ": offline"))) =
      DisplayOutcome.shown "INFY.NS" none (some "Error for INFY.NS: offline") := by
  have h := selection_overrides_search false (∅ : Finset String) "TCS.NS" "INFY.NS"
    (fun t => ((none : Option ℕ), some ("Error for " ++ t ++ ": offline")))
    (by decide) (by decide) (by decide)
  rw [h.2.1]
  rw [if_neg (by simp)]
  rfl

end Stctdauto
